import Mathlib

/-!
Verification of the dynamic schema-synthesis pipeline in `workflow/utils.py`
(functions `get_workflow_config`, `create_pydantic_model`,
`import_model_from_generated_file`, `import_module_from_path`,
`get_classes_from_module`).

The Python code is shallowly embedded: modules, classes and fields become
explicit data; the ephemeral temporary-file store becomes a `Finset String`
of file names threaded through the pipeline; a Python exception that
propagates becomes the `raised` constructor of `PyResult`; the behaviour of
the external `datamodel-codegen` subprocess and of `exec_module` on the
generated file are parameters of the embedded pipeline, since they are
decided by the environment, not by this code.
-/

namespace Autotune

/-- Outcome of a Python computation: a returned value or a propagating
exception. -/
inductive PyResult (ε : Type) (α : Type) where
  | ok (a : α)
  | raised (e : ε)
deriving DecidableEq

/-- A Python runtime type object as seen by the introspector: its
`__name__` attribute when it has one, and its `repr` text used as the
fallback label. -/
structure PyType where
  tyName : Option String
  reprText : String
deriving DecidableEq

/-- The label `get_classes_from_module` prints for a field type:
`field_type.__name__` if the type has a `__name__` attribute, else
`repr(field_type)` (utils.py lines 115-119). -/
def fieldTypeName (t : PyType) : String :=
  match t.tyName with
  | some n => n
  | none => t.reprText

/-- A Python class object: an identity (`cid`), its `__name__`, its
`__module__` attribute, its method-resolution-order ancestry as a list of
class identities (which contains the class itself, so `issubclass` is
reflexive), and its `__annotations__` mapping — the class's own declared
fields in declaration (insertion) order. -/
structure PyClass where
  cid : Nat
  name : String
  module : String
  mro : List Nat
  anns : List (String × PyType)
deriving DecidableEq

/-- A member of a module namespace: a class object or any other value
(functions, imported non-class names, dunder attributes, ...). -/
inductive PyMember where
  | cls (c : PyClass)
  | other
deriving DecidableEq

/-- A loaded Python module: its `__name__` and its namespace as an
association list of binding-name/member pairs in declaration order
(modelling the module `__dict__`, whose keys are unique and
insertion-ordered). -/
structure PyModule where
  name : String
  members : List (String × PyMember)
deriving DecidableEq

/-- Python string comparison on the underlying character sequences:
lexicographic by code point. Structural recursion, so it evaluates in the
kernel. -/
def strLeb : List Char → List Char → Bool
  | [], _ => true
  | _ :: _, [] => false
  | a :: as, b :: bs =>
    if a.toNat < b.toNat then true
    else if b.toNat < a.toNat then false
    else strLeb as bs

/-- Python `<=` on strings. -/
def pyStrLe (a b : String) : Bool :=
  strLeb a.data b.data

/-- The ordering `inspect.getmembers` sorts by: the binding name of the
member pair. -/
def memberLe (a b : String × PyClass) : Prop :=
  pyStrLe a.1 b.1 = true

instance : DecidableRel memberLe :=
  fun a b => inferInstanceAs (Decidable (pyStrLe a.1 b.1 = true))

theorem strLeb_total : ∀ as bs, strLeb as bs = true ∨ strLeb bs as = true := by
  intro as
  induction as with
  | nil => intro bs; left; cases bs <;> rfl
  | cons a as ih =>
    intro bs
    cases bs with
    | nil => right; rfl
    | cons b bs =>
      by_cases h1 : a.toNat < b.toNat
      · left; simp [strLeb, h1]
      · by_cases h2 : b.toNat < a.toNat
        · right; simp [strLeb, h2]
        · rcases ih bs with h | h
          · left; simp [strLeb, h1, h2, h]
          · right; simp [strLeb, h1, h2, h]

theorem strLeb_trans :
    ∀ as bs cs, strLeb as bs = true → strLeb bs cs = true → strLeb as cs = true := by
  intro as
  induction as with
  | nil => intro bs cs _ _; cases cs <;> rfl
  | cons a as ih =>
    intro bs cs hab hbc
    cases bs with
    | nil => simp [strLeb] at hab
    | cons b bs =>
      cases cs with
      | nil => simp [strLeb] at hbc
      | cons c cs =>
        simp only [strLeb] at hab hbc ⊢
        by_cases h1 : a.toNat < b.toNat
        · by_cases h2 : b.toNat < c.toNat
          · simp [Nat.lt_trans h1 h2]
          · by_cases h3 : c.toNat < b.toNat
            · simp [h2, h3] at hbc
            · have hbcn : b.toNat = c.toNat :=
                Nat.le_antisymm (Nat.not_lt.mp h3) (Nat.not_lt.mp h2)
              simp [hbcn ▸ h1]
        · by_cases h4 : b.toNat < a.toNat
          · simp [h1, h4] at hab
          · have habn : a.toNat = b.toNat :=
              Nat.le_antisymm (Nat.not_lt.mp h4) (Nat.not_lt.mp h1)
            simp only [if_neg h4, if_neg h1] at hab
            by_cases h2 : b.toNat < c.toNat
            · simp [habn ▸ h2]
            · by_cases h3 : c.toNat < b.toNat
              · simp [h2, h3] at hbc
              · simp only [if_neg h2, if_neg h3] at hbc
                have h5 : ¬ a.toNat < c.toNat := by omega
                have h6 : ¬ c.toNat < a.toNat := by omega
                simp only [if_neg h5, if_neg h6]
                exact ih bs cs hab hbc

instance : IsTotal (String × PyClass) memberLe :=
  ⟨fun a b => strLeb_total a.1.data b.1.data⟩

instance : IsTrans (String × PyClass) memberLe :=
  ⟨fun _ _ _ h1 h2 => strLeb_trans _ _ _ h1 h2⟩

/-- The class-valued members of a module namespace in declaration order
(the effect of the `inspect.isclass` predicate before any sorting). -/
def classMembers (m : PyModule) : List (String × PyClass) :=
  m.members.filterMap (fun p =>
    match p.2 with
    | PyMember.cls c => some (p.1, c)
    | PyMember.other => none)

/-- Embeds `inspect.getmembers(module, inspect.isclass)`: the class-valued
members of the module, sorted by binding name (CPython `getmembers` sorts
its result list by member name; Python `sorted` is stable, as is
`insertionSort`). -/
def getmembersClasses (m : PyModule) : List (String × PyClass) :=
  List.insertionSort memberLe (classMembers m)

/-- Embeds `issubclass(c, base)`: `base` occurs in the ancestry of `c`. -/
def pyIsSubclass (c base : PyClass) : Bool :=
  c.mro.contains base.cid

/-- The filter on line 112 of utils.py:
`issubclass(obj, base_class) and obj.__module__ == module.__name__`. -/
def qualifies (modName : String) (base : PyClass) (p : String × PyClass) : Bool :=
  pyIsSubclass p.2 base && p.2.module == modName

/-- The sequence of classes `get_classes_from_module` iterates over and
keeps: `getmembers` enumeration order restricted to the qualifying
classes. -/
def qualifyingClasses (m : PyModule) (base : PyClass) : List (String × PyClass) :=
  (getmembersClasses m).filter (qualifies m.name base)

/-- Modelled from the spec's words for the enumeration-order claim: the
qualifying classes of the unit in the unit's declaration order — the order
in which they are declared in the generated source, not re-sorted. -/
def declaredQualifying (m : PyModule) (base : PyClass) : List (String × PyClass) :=
  (classMembers m).filter (qualifies m.name base)

/-- One field line of the descriptor text, from line 120 of utils.py. -/
def renderFieldLine (f : String × PyType) : String :=
  "  " ++ f.1 ++ ": " ++ fieldTypeName f.2 ++ "\n"

/-- The class header written on line 113 of utils.py (note the leading
newline in the f-string). -/
def classHeader (bindingName baseName : String) : String :=
  "\n" ++ "class " ++ bindingName ++ "(" ++ baseName ++ "):" ++ "\n"

/-- Concatenation of a list of strings. -/
def strConcat (l : List String) : String :=
  l.foldr (fun a b => a ++ b) ""

/-- The body of the loop of utils.py lines 111-120 for one member pair:
when the class qualifies, append the header line and then one field line
per entry of `__annotations__`, in insertion order; otherwise leave the
accumulated text unchanged. -/
def descStep (modName : String) (base : PyClass) (acc : String) (p : String × PyClass) : String :=
  if qualifies modName base p then
    p.2.anns.foldl (fun acc2 f => acc2 ++ renderFieldLine f)
      (acc ++ classHeader p.1 base.name)
  else acc

/-- Embeds `get_classes_from_module(path, base_class)` applied to the
module loaded from `path`: the string-accumulating loop of utils.py lines
111-120. (The function's own call to `import_module_from_path` is
represented by passing the loaded module `m`; the load outcome is handled
in the pipeline embedding.) -/
def getClassesFromModule (m : PyModule) (base : PyClass) : String :=
  (getmembersClasses m).foldl (descStep m.name base) ""

/-- Modelled from the spec's rendering words: a class descriptor rendered
as the header line `class <class_name>(<base_name>):` followed by one
indented line per field, fields in their declared (insertion) order. -/
def renderDescriptor (baseName : String) (p : String × PyClass) : String :=
  "class " ++ p.1 ++ "(" ++ baseName ++ "):" ++ "\n" ++
    strConcat (p.2.anns.map renderFieldLine)

/-- Embeds `getattr(module, attr, None)`: the member bound to `attr` in the
module namespace, or `none`. -/
def lookupAttr (m : PyModule) (attr : String) : Option PyMember :=
  (m.members.find? (fun p => p.1 == attr)).map Prod.snd

/-- A Python exception raised while loading the generated file (utils.py
line 91 `spec.loader.exec_module` — e.g. a `SyntaxError` for syntactically
invalid generated output). Nothing in utils.py catches it. -/
inductive LoadErr where
  | syntaxError (msg : String)
deriving DecidableEq

/-- Embeds lines 86-87 of utils.py: the `sys.path` registration performed
by `import_model_from_generated_file` —
`if directory not in sys.path: sys.path.append(directory)`. -/
def registerDirectory (sysPath : List String) (dir : String) : List String :=
  if dir ∈ sysPath then sysPath else sysPath ++ [dir]

/-- Embeds `import_model_from_generated_file(file_path)` given the outcome
of executing the generated file (`exec_module` either raises or produces a
module): on success the function returns `getattr(module, "Model", None)`;
a load exception propagates to the caller uncaught. -/
def importModelFromGeneratedFile (loadResult : PyResult LoadErr PyModule) :
    PyResult LoadErr (Option PyMember) :=
  match loadResult with
  | PyResult.raised e => PyResult.raised e
  | PyResult.ok m => PyResult.ok (lookupAttr m "Model")

/-- The outcome of `subprocess.run(command, check=True, shell=True)` for
the codegen invocation: either success, or a `CalledProcessError` carrying
the nonzero exit status (with `shell=True` a missing tool surfaces as the
shell's exit status 127, hence also as `CalledProcessError`; no timeout is
passed, so a timeout outcome cannot occur). -/
inductive GenOutcome where
  | success
  | calledProcessError (exitCode : Nat)
deriving DecidableEq

/-- The arguments of the one `subprocess.run` call in utils.py (lines
64-69). -/
structure SubprocessRun where
  command : String
  check : Bool
  shell : Bool
  timeoutSeconds : Option Nat
deriving DecidableEq

/-- The command string built on lines 64-66 of utils.py. -/
def codegenCommand (inputName outputName : String) : String :=
  "datamodel-codegen --input " ++ inputName ++ " --output " ++ outputName

/-- The `subprocess.run` invocation of utils.py line 69: `check=True`,
`shell=True`, and no `timeout` argument. -/
def codegenRun (inputName outputName : String) : SubprocessRun :=
  { command := codegenCommand inputName outputName
    check := true
    shell := true
    timeoutSeconds := none }

/-- Embeds `tempfile.NamedTemporaryFile(..., delete=True)` used as a
context manager: the file name is added to the store, the body runs, and
on exit — normal or exceptional — the file is deleted. -/
def withTempFile {α : Type} (store : Finset String) (name : String)
    (body : Finset String → Finset String × α) : Finset String × α :=
  let afterBody := body (insert name store)
  (afterBody.1.erase name, afterBody.2)

/-- The part of `create_pydantic_model` after the subprocess step: load the
generated file (a raised load exception propagates), then
`getattr(module, "Model", None)` and the descriptor text. -/
def importAndDescribe (loadResult : PyResult LoadErr PyModule) (base : PyClass) :
    PyResult LoadErr (Option PyMember × String) :=
  match loadResult with
  | PyResult.raised e => PyResult.raised e
  | PyResult.ok m => PyResult.ok (lookupAttr m "Model", getClassesFromModule m base)

/-- Embeds `create_pydantic_model(jsonData)` (utils.py lines 53-79).
`store` is the set of files in the working directory; `jsonName` and
`pyName` are the fresh names `tempfile` picks for the two temporary files;
`genOutcome` is what the `subprocess.run` of the codegen tool does (its
`CalledProcessError` is caught, logged and execution continues — both
branches fall through to the same continuation); `loadResult` is what
executing the generated file does (used for both module loads, which read
the same file); `base` is `pydantic.BaseModel`. Returns the final store
and either the pair `(Model, class_string)` or the propagating load
exception. -/
def createPydanticModel (store : Finset String) (jsonName pyName : String)
    (genOutcome : GenOutcome) (loadResult : PyResult LoadErr PyModule)
    (base : PyClass) :
    Finset String × PyResult LoadErr (Option PyMember × String) :=
  withTempFile store jsonName (fun s1 =>
    withTempFile s1 pyName (fun s2 =>
      match genOutcome with
      | GenOutcome.success => (s2, importAndDescribe loadResult base)
      | GenOutcome.calledProcessError _ => (s2, importAndDescribe loadResult base)))

/-- A cache operation performed by `get_workflow_config`: a read or a
write of the Django cache. -/
inductive CacheOp where
  | get (key : String)
  | set (key : String)
deriving DecidableEq

/-- The persisted WorkflowConfig row (only its identity matters here). -/
structure WorkflowConfig where
  rowId : Nat
deriving DecidableEq

/-- The Http404 exception `get_object_or_404` raises when the row is
absent. -/
inductive Http404Error where
  | notFound
deriving DecidableEq

/-- The cache key built on line 25 of utils.py. -/
def workflowConfigCacheKey (wcId : Nat) : String :=
  "workflow_config_" ++ toString wcId

/-- Embeds `get_workflow_config(workflow_config)` (utils.py lines 17-31):
read the cache; on a miss, call `get_object_or_404` (whose fetched object
is discarded and which raises `Http404` when the row is absent); return
the cached value — which on a miss is `None`. The first component records
the cache operations performed. -/
def getWorkflowConfig (cacheGet : String → Option WorkflowConfig)
    (dbGet : Nat → Option WorkflowConfig) (wcId : Nat) :
    List CacheOp × PyResult Http404Error (Option WorkflowConfig) :=
  let key := workflowConfigCacheKey wcId
  match cacheGet key with
  | some c => ([CacheOp.get key], PyResult.ok (some c))
  | none =>
    match dbGet wcId with
    | some _ => ([CacheOp.get key], PyResult.ok none)
    | none => ([CacheOp.get key], PyResult.raised Http404Error.notFound)

/-- `pydantic.BaseModel` as a class object: defined in module
`pydantic.main`, never in a generated module. -/
def pydanticBaseModel : PyClass :=
  { cid := 0, name := "BaseModel", module := "pydantic.main", mro := [0], anns := [] }

/-- The module obtained by loading an empty generated file (what the
codegen tool leaves behind when it fails: the pre-created temporary output
file still has no content, and an empty file loads as a module with no
class members of its own). Dunder attributes are `other` members and are
irrelevant here, so the namespace is modelled empty. -/
def emptyGenModule : PyModule :=
  { name := "tmp_generated", members := [] }

/-- The base class used for the concrete introspection examples:
`pydantic.BaseModel`, defined in module `pydantic.main`. -/
def cexBase : PyClass :=
  { cid := 10, name := "BaseModel", module := "pydantic.main", mro := [10], anns := [] }

/-- A class named and bound as `B`, declared first in the example
generated module, subclassing the base. -/
def cexClassB : PyClass :=
  { cid := 11, name := "B", module := "tmp_generated_cex", mro := [11, 10], anns := [] }

/-- A class named and bound as `A`, declared second in the example
generated module, subclassing the base. -/
def cexClassA : PyClass :=
  { cid := 12, name := "A", module := "tmp_generated_cex", mro := [12, 10], anns := [] }

/-- An example generated module declaring class `B` first and class `A`
second, both subclasses of the base. -/
def cexModule : PyModule :=
  { name := "tmp_generated_cex",
    members := [("B", PyMember.cls cexClassB), ("A", PyMember.cls cexClassA)] }

/-- An example WorkflowConfig row. -/
def cexCfg : WorkflowConfig :=
  { rowId := 5 }

theorem strConcat_nil : strConcat [] = "" :=
  rfl

theorem strConcat_cons (a : String) (l : List String) :
    strConcat (a :: l) = a ++ strConcat l :=
  rfl

theorem foldl_renderFieldLine (anns : List (String × PyType)) (acc : String) :
    anns.foldl (fun acc2 f => acc2 ++ renderFieldLine f) acc
      = acc ++ strConcat (anns.map renderFieldLine) := by
  induction anns generalizing acc with
  | nil => simp [strConcat_nil, String.append_empty]
  | cons f fs ih =>
    simp only [List.foldl_cons, ih, List.map_cons, strConcat_cons, String.append_assoc]

theorem descStep_pos (modName : String) (base : PyClass) (acc : String) (p : String × PyClass)
    (hq : qualifies modName base p = true) :
    descStep modName base acc p = acc ++ ("\n" ++ renderDescriptor base.name p) := by
  simp only [descStep, hq, if_true, foldl_renderFieldLine, classHeader, renderDescriptor,
    String.append_assoc]

theorem descStep_neg (modName : String) (base : PyClass) (acc : String) (p : String × PyClass)
    (hq : qualifies modName base p = false) :
    descStep modName base acc p = acc := by
  simp [descStep, hq]

theorem getClasses_loop (modName : String) (base : PyClass) :
    ∀ (l : List (String × PyClass)) (acc : String),
      l.foldl (descStep modName base) acc
      = acc ++ strConcat ((l.filter (qualifies modName base)).map
          (fun p => "\n" ++ renderDescriptor base.name p)) := by
  intro l
  induction l with
  | nil => intro acc; simp [strConcat_nil, String.append_empty]
  | cons p ps ih =>
    intro acc
    cases hq : qualifies modName base p with
    | true =>
      rw [List.foldl_cons, descStep_pos modName base acc p hq, ih]
      simp [List.filter_cons, hq, strConcat_cons, String.append_assoc]
    | false =>
      rw [List.foldl_cons, descStep_neg modName base acc p hq, ih]
      simp [List.filter_cons, hq]

/-- C6: every qualifying class is rendered as the header line
`class <class_name>(<base_name>):` followed by one indented
`  <field_name>: <type_label>` line per field, fields in the declaration
(insertion) order of the class's own annotations and not sorted; the
blocks are joined with a single newline prefix per block, which — since
every block ends with a newline — yields exactly one blank line between
consecutive class descriptors. -/
theorem c6_descriptor_rendering (m : PyModule) (base : PyClass) :
    getClassesFromModule m base
      = strConcat ((qualifyingClasses m base).map
          (fun p => "\n" ++ renderDescriptor base.name p)) := by
  simp only [getClassesFromModule, qualifyingClasses]
  rw [getClasses_loop m.name base (getmembersClasses m) ""]
  rw [String.empty_append]

/-- C2 counterexample: in a generated module declaring `B` before `A`, the
introspector emits the descriptor for `A` before the one for `B` —
`inspect.getmembers` sorts members by name, so the enumeration order is
not the unit's declaration order. -/
theorem c2_declaration_order_cex :
    (qualifyingClasses cexModule cexBase).map Prod.fst = ["A", "B"] ∧
    (declaredQualifying cexModule cexBase).map Prod.fst = ["B", "A"] ∧
    (qualifyingClasses cexModule cexBase).map Prod.fst ≠
      (declaredQualifying cexModule cexBase).map Prod.fst := by
  decide

/-- C2 (amended): the ClassDescriptors are emitted in a stable enumeration
order that is lexicographic by binding name (the order `inspect.getmembers`
sorts into), and they are exactly the qualifying classes declared in the
unit — a permutation of the declaration-order sequence, not the
declaration order itself. -/
theorem c2_enumeration_sorted_by_name (m : PyModule) (base : PyClass) :
    List.Sorted memberLe (qualifyingClasses m base) ∧
    List.Perm (qualifyingClasses m base) (declaredQualifying m base) := by
  constructor
  · simp only [qualifyingClasses, getmembersClasses]
    exact (List.sorted_insertionSort memberLe (classMembers m)).filter _
  · simp only [qualifyingClasses, getmembersClasses, declaredQualifying]
    exact (List.perm_insertionSort memberLe (classMembers m)).filter _

/-- C7: the emitted sequence contains only classes declared inside the
unit (their `__module__` equals the unit's name) that are subclasses of
the base type; in particular, whenever the base type is defined in another
module — as `pydantic.BaseModel` always is for a generated unit — the base
type itself never appears, under any binding name, and neither does any
class merely imported into the unit. -/
theorem c7_only_declared_subtypes (m : PyModule) (base : PyClass)
    (h : base.module ≠ m.name) :
    (∀ bindingName : String, (bindingName, base) ∉ qualifyingClasses m base) ∧
    ∀ p ∈ qualifyingClasses m base, p.2.module = m.name ∧ pyIsSubclass p.2 base = true := by
  constructor
  · intro bn hmem
    simp only [qualifyingClasses] at hmem
    have hq := (List.mem_filter.mp hmem).2
    simp only [qualifies, Bool.and_eq_true, beq_iff_eq] at hq
    exact h hq.2
  · intro p hmem
    simp only [qualifyingClasses] at hmem
    have hq := (List.mem_filter.mp hmem).2
    simp only [qualifies, Bool.and_eq_true, beq_iff_eq] at hq
    exact ⟨hq.2, hq.1⟩

/-- C7 witness: in the concrete example module, the base class is not an
entry of the emitted sequence. -/
theorem c7_witness : ("BaseModel", cexBase) ∉ qualifyingClasses cexModule cexBase :=
  (c7_only_declared_subtypes cexModule cexBase (by decide)).1 "BaseModel"

theorem lookupAttr_eq_none (m : PyModule) (attr : String)
    (h : ∀ p ∈ m.members, p.1 ≠ attr) :
    lookupAttr m attr = none := by
  unfold lookupAttr
  rw [List.find?_eq_none.mpr]
  · rfl
  · intro p hp
    simp only [beq_iff_eq]
    exact h p hp

/-- C8: when the loaded unit binds no top-level name `Model`,
`import_model_from_generated_file` returns the absent value `None` rather
than raising, and `create_pydantic_model` still returns normally with that
absent model and the descriptor text — a reported, recoverable condition,
not a fault. -/
theorem c8_absent_model_is_recoverable (m : PyModule)
    (h : ∀ p ∈ m.members, p.1 ≠ "Model") :
    importModelFromGeneratedFile (PyResult.ok m) = PyResult.ok none ∧
    ∀ (store : Finset String) (jsonName pyName : String) (g : GenOutcome) (base : PyClass),
      (createPydanticModel store jsonName pyName g (PyResult.ok m) base).2 =
        PyResult.ok (none, getClassesFromModule m base) := by
  have hl : lookupAttr m "Model" = none := lookupAttr_eq_none m "Model" h
  constructor
  · simp [importModelFromGeneratedFile, hl]
  · intro store jsonName pyName g base
    cases g <;> simp [createPydanticModel, withTempFile, importAndDescribe, hl]

/-- C8 witness: the empty generated module has no `Model` binding and the
lookup yields the absent value. -/
theorem c8_witness : importModelFromGeneratedFile (PyResult.ok emptyGenModule) = PyResult.ok none :=
  (c8_absent_model_is_recoverable emptyGenModule (by simp [emptyGenModule])).1

/-- C3: on every exit path of `create_pydantic_model` — generator success,
generator failure, loader failure — both temporary files are deleted by
their context managers before the call returns, so the final set of files
in the ephemeral store equals the initial one. -/
theorem c3_artifact_store_restored (store : Finset String) (jsonName pyName : String)
    (genOutcome : GenOutcome) (loadResult : PyResult LoadErr PyModule) (base : PyClass)
    (hj : jsonName ∉ store) (hp : pyName ∉ store) (hne : jsonName ≠ pyName) :
    (createPydanticModel store jsonName pyName genOutcome loadResult base).1 = store := by
  have hp2 : pyName ∉ insert jsonName store := by
    intro hmem
    rcases Finset.mem_insert.mp hmem with h | h
    · exact hne h.symm
    · exact hp h
  cases genOutcome <;>
    simp [createPydanticModel, withTempFile, Finset.erase_insert hp2, Finset.erase_insert hj]

/-- C3 witness: a concrete call starting from an empty store ends with an
empty store. -/
theorem c3_witness :
    (createPydanticModel ∅ "tmp_in.json" "tmp_out.py" GenOutcome.success
      (PyResult.ok emptyGenModule) pydanticBaseModel).1 = ∅ :=
  c3_artifact_store_restored ∅ "tmp_in.json" "tmp_out.py" GenOutcome.success
    (PyResult.ok emptyGenModule) pydanticBaseModel
    (Finset.not_mem_empty _) (Finset.not_mem_empty _) (by decide)

/-- C1: when the codegen subprocess fails (`CalledProcessError`, which with
`shell=True` also covers a missing tool), `create_pydantic_model` catches
the error, logs it, and falls through: it returns the ordinary pair
`(None, "")` — there is no `GenerationFailed` failure kind anywhere in its
result — demonstrating the divergence from the specified determinate
failure result. -/
theorem c1_tool_failure_returns_plain_none_pair :
    createPydanticModel ∅ "tmp_in.json" "tmp_out.py" (GenOutcome.calledProcessError 1)
      (PyResult.ok emptyGenModule) pydanticBaseModel
      = (∅, PyResult.ok (none, "")) := by
  decide

/-- C4: when executing the generated file raises (e.g. a `SyntaxError` for
syntactically invalid output), nothing in `create_pydantic_model` or
`import_model_from_generated_file` catches it: the exception propagates
out of the pipeline (the temporary files are still deleted), instead of
the specified determinate `LoadFailed` value. -/
theorem c4_load_error_propagates_uncaught :
    createPydanticModel ∅ "tmp_in.json" "tmp_out.py" GenOutcome.success
      (PyResult.raised (LoadErr.syntaxError "invalid syntax")) pydanticBaseModel
      = (∅, PyResult.raised (LoadErr.syntaxError "invalid syntax")) := by
  decide

/-- C5: the one `subprocess.run` invocation of the codegen tool passes no
`timeout` argument at all — the invocation is unbounded, contradicting the
specified mandatory bounded timeout. -/
theorem c5_subprocess_has_no_timeout :
    ∀ inputName outputName : String,
      (codegenRun inputName outputName).timeoutSeconds = none :=
  fun _ _ => rfl

theorem registerDirectory_idem (p : List String) (d : String) :
    registerDirectory (registerDirectory p d) d = registerDirectory p d := by
  by_cases h : d ∈ p
  · simp [registerDirectory, h]
  · simp [registerDirectory, h]

theorem foldl_registerDirectory_appends :
    ∀ (ds : List String) (p : List String),
      ∃ q : List String,
        List.foldl registerDirectory p ds = p ++ q ∧ q.Nodup ∧ ∀ d ∈ q, d ∉ p := by
  intro ds
  induction ds with
  | nil => intro p; exact ⟨[], by simp⟩
  | cons d ds ih =>
    intro p
    rw [List.foldl_cons]
    by_cases h : d ∈ p
    · have hreg : registerDirectory p d = p := by simp [registerDirectory, h]
      rw [hreg]
      exact ih p
    · have hreg : registerDirectory p d = p ++ [d] := by simp [registerDirectory, h]
      rw [hreg]
      obtain ⟨q, hq, hnd, hni⟩ := ih (p ++ [d])
      refine ⟨d :: q, ?_, ?_, ?_⟩
      · rw [hq, List.append_assoc]
        rfl
      · exact List.nodup_cons.mpr ⟨fun hdq => hni d hdq (by simp), hnd⟩
      · intro x hx
        rcases List.mem_cons.mp hx with rfl | hxq
        · exact h
        · intro hxp
          exact hni x hxq (by simp [hxp])

/-- C9: the loader's `sys.path` registration is idempotent, and over any
sequence of load calls the search path only ever grows by a suffix of
directories, each distinct and each absent from the initial path — no
existing entry is removed and no directory is appended twice. -/
theorem c9_sys_path_append_only_idempotent :
    (∀ (p : List String) (d : String),
        registerDirectory (registerDirectory p d) d = registerDirectory p d) ∧
    ∀ (p ds : List String),
      ∃ q : List String,
        List.foldl registerDirectory p ds = p ++ q ∧ q.Nodup ∧ ∀ d ∈ q, d ∉ p :=
  ⟨registerDirectory_idem, fun p ds => foldl_registerDirectory_appends ds p⟩

/-- C10: on a cache miss where the database does hold the row,
`get_workflow_config` returns `None` — the fetched object is discarded —
and performs no cache write; a non-`None` result occurs only when the
value was already in the cache. -/
theorem c10_cache_miss_returns_none (cacheGet : String → Option WorkflowConfig)
    (dbGet : Nat → Option WorkflowConfig) (wcId : Nat) (cfg : WorkflowConfig)
    (hc : cacheGet (workflowConfigCacheKey wcId) = none)
    (hd : dbGet wcId = some cfg) :
    (getWorkflowConfig cacheGet dbGet wcId).2 = PyResult.ok none ∧
    (∀ op ∈ (getWorkflowConfig cacheGet dbGet wcId).1, ∀ k, op ≠ CacheOp.set k) ∧
    ∀ (g : String → Option WorkflowConfig) (d : Nat → Option WorkflowConfig)
      (i : Nat) (c : WorkflowConfig),
      (getWorkflowConfig g d i).2 = PyResult.ok (some c) →
        g (workflowConfigCacheKey i) = some c := by
  refine ⟨?_, ?_, ?_⟩
  · simp [getWorkflowConfig, hc, hd]
  · simp [getWorkflowConfig, hc, hd]
  · intro g d i c h
    cases hg : g (workflowConfigCacheKey i) with
    | some c2 =>
      simp only [getWorkflowConfig, hg, PyResult.ok.injEq, Option.some.injEq] at h
      rw [h]
    | none =>
      cases hdi : d i with
      | some c3 => simp [getWorkflowConfig, hg, hdi] at h
      | none => simp [getWorkflowConfig, hg, hdi] at h

/-- C10 witness: an empty cache and a database holding row 5 — the call
returns `None`. -/
theorem c10_witness :
    (getWorkflowConfig (fun _ => none) (fun i => if i = 5 then some cexCfg else none) 5).2 =
      PyResult.ok none :=
  (c10_cache_miss_returns_none (fun _ => none) (fun i => if i = 5 then some cexCfg else none)
    5 cexCfg rfl rfl).1

end Autotune
